import Mathlib

/-!
Verification of the font-subsetting utility `subset_font.py`
(plugins/fonts/subset/subset_font.py).

The script builds a fixed set of "common" Unicode code points, reads a
font's character map, intersects the two sets, configures the external
subsetter, applies it, saves the result and reports sizes; a batch driver
runs the procedure over a hard-coded two-entry job list, catching
per-job failures.

The embedding below mirrors the script: pure set computations are Lean
`Finset ℕ` computations; the fallible external steps (file existence,
font parsing, the subsetting library, saving) are driven by explicit
input data (`SourceFont`, `ExternalBehavior`) and the straight-line
control flow of `subset_font_aggressive` is an explicit chain of
early-exit branches producing a `RunResult` trace.
-/

/-- The set built by `get_common_chinese_chars`: a union of the script's
seven hard-coded half-open `range(a, b)` calls (Python `range` excludes
its upper bound), in the order the script adds them. -/
def get_common_chinese_chars : Finset ℕ :=
  Finset.Ico 0x20 0x7F ∪ Finset.Ico 0x2000 0x206F ∪ Finset.Ico 0x3000 0x303F ∪
  Finset.Ico 0xFF00 0xFFEF ∪ Finset.Ico 0x4E00 0x9FA6 ∪ Finset.Ico 0x3040 0x309F ∪
  Finset.Ico 0x30A0 0x30FF

/-- A source font as the script observes it: whether the file at
`source_font_path` exists, whether it parses as a font, whether the
parsed font has a `cmap` table, and the key sets of its cmap subtables. -/
structure SourceFont where
  fileExists : Bool
  parses : Bool
  hasCmap : Bool
  cmapTables : List (Finset ℕ)

/-- Behaviour of the environment and of the external fontTools library
during one run: whether the subsetting call raises, whether saving the
output raises, and the byte sizes `os.path.getsize` reports for the
source and output files. -/
structure ExternalBehavior where
  subsetFails : Bool
  saveFails : Bool
  sourceSize : ℕ
  outputSize : ℕ

/-- The subsetter options the script configures (`subset.Options()` with
the five fields the script assigns). -/
structure SubsetOptions where
  drop_tables : List String
  desubroutinize : Bool
  hinting : Bool
  legacy_kern : Bool
  layout_features : List String
deriving DecidableEq

/-- The exceptions a run of `subset_font_aggressive` can raise:
`FileNotFoundError` from `TTFont`, a parse error from `TTFont`, the
`KeyError` from `source_font['cmap']` when the table is missing, and
failures inside the subsetting call or the save call. -/
inductive SubsetError
  | fileNotFound
  | malformedFont
  | noCmapTable
  | subsetFailed
  | saveFailed
deriving DecidableEq

/-- Observable outcome of one invocation of `subset_font_aggressive`:
the exception raised (if any) and a trace of the effects that happened
before the procedure exited. -/
structure RunResult where
  result : Except SubsetError Unit
  handleOpened : Bool
  handleClosed : Bool
  optionsUsed : Option SubsetOptions
  outputWritten : Bool
  outputCoverage : Option (Finset ℕ)
  reportedPercent : Option ℚ

/-- `source_chars`: the union of the key sets of all cmap subtables, as
the script's `for table in source_font['cmap'].tables` loop computes it. -/
def sourceCharsOf (tables : List (Finset ℕ)) : Finset ℕ :=
  tables.foldl (fun acc t => acc ∪ t) ∅

/-- Modelled from the spec: the external fontTools
`subsetter.populate(unicodes=...)` / `subsetter.subset(font)` pair is not
part of this repository; per the spec it applies "the subsetting
operation restricted to the keep set's code points, mutating the
in-memory font representation to drop unreferenced glyphs", so the
resulting font's character coverage is the source coverage restricted to
the requested code points. -/
def applySubset (coverage keep : Finset ℕ) : Finset ℕ :=
  coverage ∩ keep

/-- The body of `subset_font_aggressive(source_font_path, output_font_path)`,
step by step: open the font (may raise `FileNotFoundError` or a parse
error), enumerate `source_chars` from the cmap tables (raises when the
`cmap` table is missing), build `chars_to_keep = common_chars & source_chars`,
configure the subsetter options, subset, save, close the handle, and
compute the reported compression ratio
`(1 - new_size/original_size) * 100` from the two sizes each divided by
`1024 * 1024`.  Any raised exception propagates immediately; the
`source_font.close()` call sits after `save` on the straight-line path. -/
def subset_font_aggressive (font : SourceFont) (ext : ExternalBehavior) : RunResult :=
  if font.fileExists = false then
    ⟨.error .fileNotFound, false, false, none, false, none, none⟩
  else if font.parses = false then
    ⟨.error .malformedFont, false, false, none, false, none, none⟩
  else if font.hasCmap = false then
    ⟨.error .noCmapTable, true, false, none, false, none, none⟩
  else
    let source_chars := sourceCharsOf font.cmapTables
    let chars_to_keep := get_common_chinese_chars ∩ source_chars
    let options : SubsetOptions := ⟨["DSIG"], true, false, false, ["*"]⟩
    if ext.subsetFails then
      ⟨.error .subsetFailed, true, false, some options, false, none, none⟩
    else if ext.saveFails then
      ⟨.error .saveFailed, true, false, some options, false, none, none⟩
    else
      ⟨.ok (), true, true, some options, true,
        some (applySubset source_chars chars_to_keep),
        some ((1 - ((ext.outputSize : ℚ) / (1024 * 1024)) /
          ((ext.sourceSize : ℚ) / (1024 * 1024))) * 100)⟩

/-- The hard-coded job list of the `__main__` block. -/
def fonts_to_process : List (String × String) :=
  [("SourceHanSerifSC.otf", "SourceHanSerifSC-subset.otf"),
   ("SourceHanSansSC-Bold.otf", "SourceHanSansSC-Bold-subset.otf")]

/-- What the batch driver prints for one job: the success message, the
`FileNotFoundError` message, or the generic error message (with the
traceback flag recording that `traceback.print_exc()` ran). -/
inductive JobReport
  | completed
  | missingFile
  | genericError (tracebackPrinted : Bool)
deriving DecidableEq

/-- The driver's `try/except` classification: `FileNotFoundError` hits
the first handler, every other exception hits the
`except Exception` handler which prints the traceback. -/
def reportOf (r : Except SubsetError Unit) : JobReport :=
  match r with
  | .ok _ => .completed
  | .error .fileNotFound => .missingFile
  | .error _ => .genericError true

/-- Outcome of the `__main__` block: the per-job reports in job order,
whether the final completion banner was printed, and the process exit
code. -/
structure BatchResult where
  reports : List JobReport
  bannerPrinted : Bool
  exitCode : ℕ
deriving DecidableEq

/-- The `__main__` loop: every job in `fonts_to_process` is attempted in
order (each `except` branch ends in `continue`, so no job's failure stops
the loop), then the completion banner is printed and the script falls off
the end, exiting with status 0.  `env` supplies each job's source font
and external behaviour. -/
def runBatch (env : String × String → SourceFont × ExternalBehavior) : BatchResult :=
  { reports := fonts_to_process.map (fun job =>
      reportOf (subset_font_aggressive (env job).1 (env job).2).result)
    bannerPrinted := true
    exitCode := 0 }

/-- Membership in the common set, unfolded to arithmetic. -/
lemma mem_get_common_chinese_chars (c : ℕ) :
    c ∈ get_common_chinese_chars ↔
      (0x20 ≤ c ∧ c < 0x7F) ∨ (0x2000 ≤ c ∧ c < 0x206F) ∨ (0x3000 ≤ c ∧ c < 0x303F) ∨
      (0xFF00 ≤ c ∧ c < 0xFFEF) ∨ (0x4E00 ≤ c ∧ c < 0x9FA6) ∨ (0x3040 ≤ c ∧ c < 0x309F) ∨
      (0x30A0 ≤ c ∧ c < 0x30FF) := by
  simp only [get_common_chinese_chars, Finset.mem_union, Finset.mem_Ico]
  omega

/-- Disjointness of two concrete `Ico` ranges from an ordering fact. -/
lemma ico_disj {a b c d : ℕ} (h : b ≤ c ∨ d ≤ a) :
    Disjoint (Finset.Ico a b) (Finset.Ico c d) := by
  refine Finset.disjoint_left.mpr ?_
  intro x hx hy
  rw [Finset.mem_Ico] at hx hy
  omega

/-- C1: whenever `subset_font_aggressive` produces an output font, its
character coverage is a subset of the source font's coverage and a subset
of the common character set (hence of their intersection), never a
superset of either. -/
theorem output_coverage_subset (font : SourceFont) (ext : ExternalBehavior)
    (cov : Finset ℕ)
    (h : (subset_font_aggressive font ext).outputCoverage = some cov) :
    cov ⊆ sourceCharsOf font.cmapTables ∧ cov ⊆ get_common_chinese_chars := by
  obtain ⟨fe, p, hc, tables⟩ := font
  obtain ⟨sf, sv, s1, s2⟩ := ext
  cases fe <;> cases p <;> cases hc <;> cases sf <;> cases sv <;>
    simp [subset_font_aggressive, applySubset] at h
  subst h
  exact ⟨Finset.inter_subset_left,
    Finset.inter_subset_right.trans Finset.inter_subset_left⟩

/-- Witness for C1: a concrete successful run on a one-table font. -/
theorem output_coverage_subset_witness :
    applySubset (sourceCharsOf [{0x41}])
        (get_common_chinese_chars ∩ sourceCharsOf [{0x41}]) ⊆ sourceCharsOf [{0x41}] ∧
    applySubset (sourceCharsOf [{0x41}])
        (get_common_chinese_chars ∩ sourceCharsOf [{0x41}]) ⊆ get_common_chinese_chars :=
  output_coverage_subset ⟨true, true, true, [{0x41}]⟩ ⟨false, false, 4, 1⟩ _ rfl

/-- The Unicode blocks the spec and claim C2 name, each in full
(inclusive ranges per the Unicode standard): printable ASCII
(U+0020–U+007E), General Punctuation (U+2000–U+206F), CJK Symbols and
Punctuation (U+3000–U+303F), Halfwidth and Fullwidth Forms
(U+FF00–U+FFEF), CJK Unified Ideographs (U+4E00–U+9FFF), Hiragana
(U+3040–U+309F), Katakana (U+30A0–U+30FF). -/
def specNamedBlocksFull : Finset ℕ :=
  Finset.Icc 0x20 0x7E ∪ Finset.Icc 0x2000 0x206F ∪ Finset.Icc 0x3000 0x303F ∪
  Finset.Icc 0xFF00 0xFFEF ∪ Finset.Icc 0x4E00 0x9FFF ∪ Finset.Icc 0x3040 0x309F ∪
  Finset.Icc 0x30A0 0x30FF

/-- C2 counterexample: U+206F belongs to the General Punctuation block
(and so to the union of the named blocks taken in full) but not to
`get_common_chinese_chars`, because the script's Python `range` calls
exclude their upper bounds; in particular the built set is not the union
of the named blocks in full. -/
theorem common_chars_misses_block_end :
    (0x206F : ℕ) ∈ Finset.Icc 0x2000 0x206F ∧
    (0x206F : ℕ) ∈ specNamedBlocksFull ∧
    (0x206F : ℕ) ∉ get_common_chinese_chars ∧
    get_common_chinese_chars ≠ specNamedBlocksFull := by
  have h1 : (0x206F : ℕ) ∈ specNamedBlocksFull := by
    simp only [specNamedBlocksFull, Finset.mem_union, Finset.mem_Icc]
    omega
  have h2 : (0x206F : ℕ) ∉ get_common_chinese_chars := by
    rw [mem_get_common_chinese_chars]
    omega
  refine ⟨?_, h1, h2, ?_⟩
  · rw [Finset.mem_Icc]; omega
  · intro he
    rw [← he] at h1
    exact h2 h1

/-- C2 amended: the common set equals the union of the seven hard-coded
inclusive ranges 0x20–0x7E, 0x2000–0x206E, 0x3000–0x303E, 0xFF00–0xFFEE,
0x4E00–0x9FA5, 0x3040–0x309E, 0x30A0–0x30FE; each range lies inside the
corresponding named Unicode block (so the whole set is contained in the
union of the blocks), but the blocks are not covered in full. -/
theorem common_chars_eq_inclusive_ranges :
    get_common_chinese_chars =
      Finset.Icc 0x20 0x7E ∪ Finset.Icc 0x2000 0x206E ∪ Finset.Icc 0x3000 0x303E ∪
      Finset.Icc 0xFF00 0xFFEE ∪ Finset.Icc 0x4E00 0x9FA5 ∪ Finset.Icc 0x3040 0x309E ∪
      Finset.Icc 0x30A0 0x30FE ∧
    get_common_chinese_chars ⊆ specNamedBlocksFull := by
  constructor
  · ext c
    rw [mem_get_common_chinese_chars]
    simp only [Finset.mem_union, Finset.mem_Icc]
    omega
  · intro c hc
    rw [mem_get_common_chinese_chars] at hc
    simp only [specNamedBlocksFull, Finset.mem_union, Finset.mem_Icc]
    omega

/-- C9: every code point in the common set is at most 0xFFEE, and hence
every keep set `get_common_chinese_chars ∩ source_chars` computed by
`subset_font_aggressive` lies inside the Basic Multilingual Plane, so
supplementary-plane characters are always excluded. -/
theorem common_chars_bmp_only :
    (∀ c ∈ get_common_chinese_chars, c ≤ 0xFFEE) ∧
    ∀ (s : Finset ℕ) (c : ℕ), c ∈ get_common_chinese_chars ∩ s → c < 0x10000 := by
  constructor
  · intro c hc
    rw [mem_get_common_chinese_chars] at hc
    omega
  · intro s c hc
    rw [Finset.mem_inter] at hc
    obtain ⟨h1, _⟩ := hc
    rw [mem_get_common_chinese_chars] at h1
    omega

/-- Witness for C9 at code point 0x41 and source set {0x41}. -/
theorem common_chars_bmp_only_witness :
    (0x41 : ℕ) ≤ 0xFFEE ∧ (0x41 : ℕ) < 0x10000 :=
  ⟨common_chars_bmp_only.1 0x41 (by rw [mem_get_common_chinese_chars]; omega),
   common_chars_bmp_only.2 {0x41} 0x41 (by
     rw [Finset.mem_inter]
     exact ⟨by rw [mem_get_common_chinese_chars]; omega, Finset.mem_singleton_self 0x41⟩)⟩

/-- C8: `get_common_chinese_chars` has exactly 21600 elements: the seven
hard-coded ranges are pairwise disjoint and have 95, 111, 63, 95, 95,
20902 and 239 elements respectively. -/
theorem get_common_chinese_chars_card :
    get_common_chinese_chars.card = 21600 ∧
    List.Pairwise Disjoint
      [Finset.Ico 0x20 0x7F, Finset.Ico 0x2000 0x206F, Finset.Ico 0x3000 0x303F,
       Finset.Ico 0x3040 0x309F, Finset.Ico 0x30A0 0x30FF, Finset.Ico 0x4E00 0x9FA6,
       Finset.Ico 0xFF00 0xFFEF] ∧
    (Finset.Ico 0x20 0x7F).card = 95 ∧ (Finset.Ico 0x2000 0x206F).card = 111 ∧
    (Finset.Ico 0x3000 0x303F).card = 63 ∧ (Finset.Ico 0x3040 0x309F).card = 95 ∧
    (Finset.Ico 0x30A0 0x30FF).card = 95 ∧ (Finset.Ico 0x4E00 0x9FA6).card = 20902 ∧
    (Finset.Ico 0xFF00 0xFFEF).card = 239 := by
  refine ⟨?_, ?_, ?_, ?_, ?_, ?_, ?_, ?_, ?_⟩
  · unfold get_common_chinese_chars
    rw [Finset.card_union_of_disjoint, Finset.card_union_of_disjoint,
        Finset.card_union_of_disjoint, Finset.card_union_of_disjoint,
        Finset.card_union_of_disjoint, Finset.card_union_of_disjoint]
    · norm_num [Nat.card_Ico]
    all_goals
      try simp only [Finset.disjoint_union_left]
      repeat' apply And.intro
      all_goals exact ico_disj (by omega)
  · simp only [List.pairwise_cons, List.mem_cons, List.not_mem_nil, or_false,
      forall_eq_or_imp, forall_eq, false_implies, implies_true, and_true,
      List.Pairwise.nil]
    repeat' apply And.intro
    all_goals exact ico_disj (by omega)
  all_goals norm_num [Nat.card_Ico]

/-- C3: on a source font declaring exactly {0x41, 0x4E2D, 0x1F600}, the
keep set is exactly {0x41, 0x4E2D} (0x41 and 0x4E2D are common, 0x1F600
is not) and a successful run's output covers exactly those two code
points and no others. -/
theorem end_to_end_keep_set :
    (0x41 : ℕ) ∈ get_common_chinese_chars ∧
    (0x4E2D : ℕ) ∈ get_common_chinese_chars ∧
    (0x1F600 : ℕ) ∉ get_common_chinese_chars ∧
    get_common_chinese_chars ∩ sourceCharsOf [{0x41, 0x4E2D, 0x1F600}] = {0x41, 0x4E2D} ∧
    (subset_font_aggressive ⟨true, true, true, [{0x41, 0x4E2D, 0x1F600}]⟩
        ⟨false, false, 4, 1⟩).outputCoverage = some {0x41, 0x4E2D} := by
  have hsrc : sourceCharsOf [{0x41, 0x4E2D, 0x1F600}] = {0x41, 0x4E2D, 0x1F600} := by
    simp [sourceCharsOf]
  have hkeep : get_common_chinese_chars ∩ sourceCharsOf [{0x41, 0x4E2D, 0x1F600}] =
      {0x41, 0x4E2D} := by
    rw [hsrc]
    ext c
    rw [Finset.mem_inter, mem_get_common_chinese_chars]
    simp only [Finset.mem_insert, Finset.mem_singleton]
    omega
  have hout : applySubset (sourceCharsOf [{0x41, 0x4E2D, 0x1F600}])
      (get_common_chinese_chars ∩ sourceCharsOf [{0x41, 0x4E2D, 0x1F600}]) =
      {0x41, 0x4E2D} := by
    rw [applySubset, hkeep, hsrc]
    ext c
    simp only [Finset.mem_inter, Finset.mem_insert, Finset.mem_singleton]
    omega
  refine ⟨?_, ?_, ?_, hkeep, ?_⟩
  · rw [mem_get_common_chinese_chars]; omega
  · rw [mem_get_common_chinese_chars]; omega
  · rw [mem_get_common_chinese_chars]; omega
  · show some (applySubset (sourceCharsOf [{0x41, 0x4E2D, 0x1F600}])
        (get_common_chinese_chars ∩ sourceCharsOf [{0x41, 0x4E2D, 0x1F600}])) =
      some {0x41, 0x4E2D}
    exact congrArg some hout

/-- C4: for every environment, the batch driver attempts both jobs of
the fixed list in order; a missing source file yields the missing-file
report, any other exception yields the generic report with a traceback,
and no job's outcome stops the batch: the driver always prints the
completion banner and exits with status 0. -/
theorem batch_driver_contract (env : String × String → SourceFont × ExternalBehavior) :
    (runBatch env).reports =
      fonts_to_process.map (fun job =>
        reportOf (subset_font_aggressive (env job).1 (env job).2).result) ∧
    (runBatch env).reports.length = 2 ∧
    (runBatch env).bannerPrinted = true ∧
    (runBatch env).exitCode = 0 ∧
    (∀ (p hc : Bool) (t : List (Finset ℕ)) (ext : ExternalBehavior),
      reportOf (subset_font_aggressive ⟨false, p, hc, t⟩ ext).result = .missingFile) ∧
    (∀ (font : SourceFont) (ext : ExternalBehavior) (e : SubsetError),
      (subset_font_aggressive font ext).result = .error e → e ≠ .fileNotFound →
        reportOf (subset_font_aggressive font ext).result = .genericError true) ∧
    (∀ (font : SourceFont) (ext : ExternalBehavior),
      (subset_font_aggressive font ext).result = .ok () →
        reportOf (subset_font_aggressive font ext).result = .completed) := by
  refine ⟨rfl, rfl, rfl, rfl, ?_, ?_, ?_⟩
  · intro p hc t ext
    rfl
  · intro font ext e he hne
    rw [he]
    cases e <;> simp [reportOf]
    exact absurd rfl hne
  · intro font ext he
    rw [he]
    rfl

/-- Witness for C4 at concrete jobs: one with a missing source file, one
whose subsetting step raises. -/
theorem batch_driver_contract_witness :
    reportOf (subset_font_aggressive ⟨false, true, true, []⟩ ⟨false, false, 0, 0⟩).result =
      .missingFile ∧
    reportOf (subset_font_aggressive ⟨true, true, true, []⟩ ⟨true, false, 0, 0⟩).result =
      .genericError true :=
  ⟨(batch_driver_contract
      (fun _ => (⟨false, true, true, []⟩, ⟨false, false, 0, 0⟩))).2.2.2.2.1
        true true [] ⟨false, false, 0, 0⟩,
   (batch_driver_contract
      (fun _ => (⟨false, true, true, []⟩, ⟨false, false, 0, 0⟩))).2.2.2.2.2.1
        ⟨true, true, true, []⟩ ⟨true, false, 0, 0⟩ .subsetFailed rfl (by decide)⟩

/-- C5 counterexample: a run whose save step raises exits with an error
while the font handle, though opened, was never closed — the script has
no scoped release on error paths (`source_font.close()` only runs after a
successful save). -/
theorem handle_not_closed_on_error :
    (subset_font_aggressive ⟨true, true, true, [{0x41}]⟩ ⟨false, true, 4, 4⟩).result =
      .error .saveFailed ∧
    (subset_font_aggressive ⟨true, true, true, [{0x41}]⟩ ⟨false, true, 4, 4⟩).handleOpened =
      true ∧
    (subset_font_aggressive ⟨true, true, true, [{0x41}]⟩ ⟨false, true, 4, 4⟩).handleClosed =
      false :=
  ⟨rfl, rfl, rfl⟩

/-- C5 amended: within one invocation the handle is closed exactly on
the successful exit path — `source_font.close()` runs if and only if the
procedure exits without raising. -/
theorem handle_closed_iff_success (font : SourceFont) (ext : ExternalBehavior) :
    (subset_font_aggressive font ext).handleClosed = true ↔
      (subset_font_aggressive font ext).result = .ok () := by
  obtain ⟨fe, p, hc, t⟩ := font
  obtain ⟨sf, sv, s1, s2⟩ := ext
  cases fe <;> cases p <;> cases hc <;> cases sf <;> cases sv <;>
    simp [subset_font_aggressive]

/-- C6: whenever the run configures the subsetter it uses exactly the
options drop_tables = ["DSIG"], desubroutinize, hinting off, legacy_kern
off, layout_features = ["*"]; and whenever subsetting produced an output,
those options had been configured beforehand. -/
theorem subsetter_options_exact (font : SourceFont) (ext : ExternalBehavior) :
    ((subset_font_aggressive font ext).optionsUsed = none ∨
      (subset_font_aggressive font ext).optionsUsed =
        some ⟨["DSIG"], true, false, false, ["*"]⟩) ∧
    ((subset_font_aggressive font ext).outputCoverage.isSome = true →
      (subset_font_aggressive font ext).optionsUsed =
        some ⟨["DSIG"], true, false, false, ["*"]⟩) := by
  obtain ⟨fe, p, hc, t⟩ := font
  obtain ⟨sf, sv, s1, s2⟩ := ext
  cases fe <;> cases p <;> cases hc <;> cases sf <;> cases sv <;>
    simp [subset_font_aggressive]

/-- Witness for C6: the concrete successful run configured exactly the
claimed options. -/
theorem subsetter_options_exact_witness :
    (subset_font_aggressive ⟨true, true, true, [{0x41}]⟩ ⟨false, false, 4, 1⟩).optionsUsed =
      some ⟨["DSIG"], true, false, false, ["*"]⟩ :=
  (subsetter_options_exact ⟨true, true, true, [{0x41}]⟩ ⟨false, false, 4, 1⟩).2 rfl

/-- The reported ratio is either absent or the exact expression the
script prints. -/
lemma run_reportedPercent (font : SourceFont) (ext : ExternalBehavior) :
    (subset_font_aggressive font ext).reportedPercent = none ∨
    (subset_font_aggressive font ext).reportedPercent =
      some ((1 - ((ext.outputSize : ℚ) / (1024 * 1024)) /
        ((ext.sourceSize : ℚ) / (1024 * 1024))) * 100) := by
  obtain ⟨fe, p, hc, t⟩ := font
  obtain ⟨sf, sv, s1, s2⟩ := ext
  cases fe <;> cases p <;> cases hc <;> cases sf <;> cases sv <;>
    simp [subset_font_aggressive]

/-- C7: on a run that reports a compression ratio, with positive source
size S1 and output size S2, the reported ratio equals
(1 - S2/S1) * 100 exactly (in ℚ, so within any floating-point
tolerance). -/
theorem compression_ratio_correct (font : SourceFont) (ext : ExternalBehavior) (r : ℚ)
    (h : (subset_font_aggressive font ext).reportedPercent = some r)
    (hpos : 0 < ext.sourceSize) :
    r = (1 - (ext.outputSize : ℚ) / (ext.sourceSize : ℚ)) * 100 := by
  rcases run_reportedPercent font ext with hnone | hsome
  · rw [hnone] at h
    cases h
  · rw [hsome] at h
    have h2 := Option.some.inj h
    have hs : (ext.sourceSize : ℚ) ≠ 0 :=
      Nat.cast_ne_zero.mpr hpos.ne'
    rw [← h2]
    field_simp

/-- Witness for C7: a successful run on a 2 MiB source producing a 1 MiB
output reports a 50% ratio. -/
theorem compression_ratio_correct_witness :
    ((1 - (((1048576 : ℕ) : ℚ) / (1024 * 1024)) /
        (((2097152 : ℕ) : ℚ) / (1024 * 1024))) * 100) =
      (1 - ((1048576 : ℕ) : ℚ) / ((2097152 : ℕ) : ℚ)) * 100 :=
  compression_ratio_correct ⟨true, true, true, []⟩ ⟨false, false, 2097152, 1048576⟩ _
    rfl (by decide)

/-- C10: a font file that exists and parses but has no cmap table makes
`subset_font_aggressive` raise while enumerating coverage — before the
subsetter is configured and before any output is written; the batch
driver classifies the exception as a generic error, prints the
traceback, and still attempts every job, printing the banner and exiting
with status 0. -/
theorem no_cmap_table_generic_error (tables : List (Finset ℕ)) (ext : ExternalBehavior) :
    (subset_font_aggressive ⟨true, true, false, tables⟩ ext).result = .error .noCmapTable ∧
    (subset_font_aggressive ⟨true, true, false, tables⟩ ext).optionsUsed = none ∧
    (subset_font_aggressive ⟨true, true, false, tables⟩ ext).outputWritten = false ∧
    reportOf (subset_font_aggressive ⟨true, true, false, tables⟩ ext).result =
      .genericError true ∧
    (runBatch (fun _ => (⟨true, true, false, tables⟩, ext))).reports =
      [.genericError true, .genericError true] ∧
    (runBatch (fun _ => (⟨true, true, false, tables⟩, ext))).bannerPrinted = true ∧
    (runBatch (fun _ => (⟨true, true, false, tables⟩, ext))).exitCode = 0 :=
  ⟨rfl, rfl, rfl, rfl, rfl, rfl, rfl⟩
